import Mathlib

/-!
Shallow embedding of the HomeOps health analyzer
(`src/homeops/app/health/analyzer.py`) together with the caller's
upstream-failure fallback (`src/homeops/app/__init__.py`).

`analyze_health` consumes a list of entity-state records and produces a
health summary; `build_report` turns a summary into the user-facing
report.  Python dictionaries with optional keys are embedded as
structures of `Option` fields (`none` = absent key); `dict.get` with a
default becomes `Option.getD`.  Python's `sorted(..., key=len,
reverse=True)` is a stable sort and is embedded as a stable insertion
sort on (domain, count) pairs.
-/

namespace HomeOps

/-- The two attribute keys the analyzer reads (`latest_version`,
`installed_version`); an absent key is `none`. -/
structure Attrs where
  latest_version : Option String := none
  installed_version : Option String := none
deriving DecidableEq

/-- One entity-state record from `/api/states`; each field `none` models a
missing dictionary key. -/
structure StateRecord where
  entity_id : Option String := none
  state : Option String := none
  attributes : Option Attrs := none
deriving DecidableEq

/-- `IMPORTANT_DOMAINS` from analyzer.py (a set; only membership is used). -/
def IMPORTANT_DOMAINS : List String :=
  ["light", "switch", "lock", "climate", "cover", "fan", "media_player"]

/-- `state.get("entity_id", "")`. -/
def recordEid (r : StateRecord) : String := r.entity_id.getD ""

/-- `state.get("state") or ""`: an absent (or empty) state key yields `""`. -/
def recordState (r : StateRecord) : String := r.state.getD ""

/-- `state.get("attributes", {})`. -/
def recordAttrs (r : StateRecord) : Attrs := r.attributes.getD {}

/-- `entity_id.split(".")[0] if "." in entity_id else "unknown"`: the
characters before the first `.`, or the sentinel when there is none.
Stated on the character list so it computes by kernel reduction. -/
def domainOf (eid : String) : String :=
  if eid.toList.contains '.' then
    String.mk (eid.toList.takeWhile fun c => !(c == '.'))
  else "unknown"

/-- Domain of a record, derived from its (defaulted) entity id. -/
def recordDomain (r : StateRecord) : String := domainOf (recordEid r)

/-- `entity_state in ("unavailable", "unknown")`. -/
def isUnavailable (r : StateRecord) : Bool :=
  recordState r == "unavailable" || recordState r == "unknown"

/-- A record enters the critical list when it is unavailable and its domain
is in `IMPORTANT_DOMAINS`. -/
def isCriticalUnavailable (r : StateRecord) : Bool :=
  isUnavailable r && IMPORTANT_DOMAINS.contains (recordDomain r)

/-- Python truthiness of an optional version string: present and non-empty. -/
def truthyString : Option String → Bool
  | some s => !(s == "")
  | none => false

/-- `latest and installed and latest != installed`. -/
def versionMismatch (a : Attrs) : Bool :=
  truthyString a.latest_version && truthyString a.installed_version
    && !(a.latest_version == a.installed_version)

/-- The update-branch test: domain is `update` and
`entity_state == "on" or (latest and installed and latest != installed)`. -/
def isPendingUpdate (r : StateRecord) : Bool :=
  recordDomain r == "update"
    && (recordState r == "on" || versionMismatch (recordAttrs r))

/-- One element of `updates["items"]`. -/
structure UpdateItem where
  entity_id : String
  installed : Option String
  latest : Option String
deriving DecidableEq

/-- The dict appended for a pending update. -/
def mkUpdateItem (r : StateRecord) : UpdateItem :=
  { entity_id := recordEid r
    installed := (recordAttrs r).installed_version
    latest := (recordAttrs r).latest_version }

/-- The `unavailable` accumulator list (entity ids, input order). -/
def unavailableList (states : List StateRecord) : List String :=
  (states.filter isUnavailable).map recordEid

/-- The `critical_unavailable` accumulator list. -/
def criticalUnavailableList (states : List StateRecord) : List String :=
  (states.filter isCriticalUnavailable).map recordEid

/-- The `updates` accumulator list. -/
def updatesList (states : List StateRecord) : List UpdateItem :=
  (states.filter isPendingUpdate).map mkUpdateItem

/-- `by_domain[domain].append(entity_id)` on an insertion-ordered
association list of buckets (the embedding of a `defaultdict(list)`):
append to the existing bucket, or create a new bucket at the end. -/
def addToBucket (buckets : List (String × List String)) (d eid : String) :
    List (String × List String) :=
  match buckets with
  | [] => [(d, [eid])]
  | (k, es) :: rest =>
      if k = d then (k, es ++ [eid]) :: rest else (k, es) :: addToBucket rest d eid

/-- One loop iteration's effect on the `by_domain` buckets. -/
def bucketStep (acc : List (String × List String)) (r : StateRecord) :
    List (String × List String) :=
  if isUnavailable r then addToBucket acc (recordDomain r) (recordEid r) else acc

/-- The `by_domain` buckets after the loop, in first-encountered order. -/
def byDomainBuckets (states : List StateRecord) : List (String × List String) :=
  states.foldl bucketStep []

/-- `by_domain.items()` with each bucket replaced by its length, still in
first-encountered (dict insertion) order. -/
def domainCounts (states : List StateRecord) : List (String × Nat) :=
  (byDomainBuckets states).map fun p => (p.1, p.2.length)

/-- Stable insertion into a count-descending list: walk past strictly
larger counts, so ties keep the earlier element first. -/
def insertByCountDesc (p : String × Nat) :
    List (String × Nat) → List (String × Nat)
  | [] => [p]
  | q :: rest => if p.2 < q.2 then q :: insertByCountDesc p rest else p :: q :: rest

/-- `sorted(by_domain.items(), key=lambda item: len(item[1]), reverse=True)`:
a stable sort by count descending. -/
def sortByCountDesc : List (String × Nat) → List (String × Nat)
  | [] => []
  | p :: rest => insertByCountDesc p (sortByCountDesc rest)

/-- The severity decision: `critical` at 5 or more critical-unavailable
entities, else `warning` when either accumulator is non-empty, else
`healthy`. -/
def severityOf (states : List StateRecord) : String :=
  if 5 ≤ (criticalUnavailableList states).length then "critical"
  else if !(criticalUnavailableList states).isEmpty
      || !(updatesList states).isEmpty then "warning"
  else "healthy"

/-- The `unavailable` sub-dictionary of the summary. -/
structure UnavailableSummary where
  total_count : Nat
  critical_count : Nat
  by_domain : List (String × Nat)
deriving DecidableEq

/-- The `updates` sub-dictionary of the summary. -/
structure UpdatesSummary where
  count : Nat
  items : List UpdateItem
deriving DecidableEq

/-- The dictionary returned by `analyze_health`. -/
structure HealthSummary where
  severity : String
  unavailable : UnavailableSummary
  updates : UpdatesSummary
deriving DecidableEq

/-- `analyze_health(states)`. -/
def analyze_health (states : List StateRecord) : HealthSummary :=
  { severity := severityOf states
    unavailable :=
      { total_count := (unavailableList states).length
        critical_count := (criticalUnavailableList states).length
        by_domain := sortByCountDesc (domainCounts states) }
    updates :=
      { count := (updatesList states).length
        items := updatesList states } }

/-- The dictionary returned by `build_report`: its literal keys are
`headline`, `description`, `start_here`, `details` and nothing else. -/
structure Report where
  headline : String
  description : String
  start_here : List String
  details : String
deriving DecidableEq

/-- The keys of the dict literals returned by `build_report` (both the
healthy branch and the issue branch return exactly these four keys). -/
def reportFieldNames : List String :=
  ["headline", "description", "start_here", "details"]

/-- The fixed report of the `severity == "healthy"` branch. -/
def healthyReport : Report :=
  { headline := "No critical issues detected"
    description := "All core devices appear to be operating normally."
    start_here := []
    details := "" }

/-- The `description` string of the issue branch (two adjacent Python
string literals, concatenated). -/
def unavailDescription : String :=
  "Core device domains (lights, climate, locks, media) are unavailable. This usually indicates an integration outage, coordinator issue, or network/device power problem."

/-- The fixed three-step `start_here` checklist of the issue branch.  The
first entry reproduces the source bytes exactly, mojibake included
(the file contains U+00E2 U+2020 U+2019 where an arrow was intended). -/
def unavailStartHere : List String :=
  ["Check whether the affected integration(s) show errors in Settings â†’ Devices & services.",
   "If the affected devices are Zigbee/Z-Wave, verify the coordinator is online and not rebooting.",
   "If this started after an update or restart, review what changed recently before rebooting repeatedly."]

/-- `f"{domain} ({count})"`. -/
def formatImpacted (p : String × Nat) : String :=
  p.1 ++ " (" ++ toString p.2 ++ ")"

/-- The `impacted` list: by_domain entries restricted to important
domains. -/
def impactedList (by_domain : List (String × Nat)) : List String :=
  (by_domain.filter fun p => IMPORTANT_DOMAINS.contains p.1).map formatImpacted

/-- `impacted` after the fallback: when no important domain appears and
`by_domain` is non-empty, append the first (highest-count) domain. -/
def impactedWithFallback (by_domain : List (String × Nat)) : List String :=
  let impacted := impactedList by_domain
  if impacted.isEmpty then
    match by_domain with
    | [] => impacted
    | p :: _ => impacted ++ [formatImpacted p]
  else impacted

/-- `build_report(health)`. -/
def build_report (health : HealthSummary) : Report :=
  if health.severity == "healthy" then healthyReport
  else
    let impacted := impactedWithFallback health.unavailable.by_domain
    { headline :=
        toString health.unavailable.critical_count ++ " critical devices unavailable"
      description := unavailDescription
      start_here := unavailStartHere
      details :=
        if impacted.isEmpty then ""
        else "Most affected domains: " ++ String.intercalate ", " impacted }

/-- The schema-valid `health` dictionary the caller synthesizes in its
`except` branch (`src/homeops/app/__init__.py`) when the upstream fetch
fails: severity `unknown`, zeroed counts. -/
def fallbackHealth : HealthSummary :=
  { severity := "unknown"
    unavailable := { total_count := 0, critical_count := 0, by_domain := [] }
    updates := { count := 0, items := [] } }

/-- A record in the `update` domain with `state="off"` and differing
versions; used in concrete scenarios. -/
def updOffDiff : StateRecord :=
  ⟨some "update.foo", some "off", some ⟨some "1.1", some "1.0"⟩⟩

/-! ### Concrete records and summaries used in scenarios -/

/-- `update.foo` with `state="off"` and equal versions. -/
def updOffSame : StateRecord :=
  ⟨some "update.foo", some "off", some ⟨some "1.0", some "1.0"⟩⟩

/-- `update.foo` with `state="on"` and equal versions. -/
def updOn : StateRecord :=
  ⟨some "update.foo", some "on", some ⟨some "1.0", some "1.0"⟩⟩

/-- An `update.*` record that is simultaneously unavailable and has a
version mismatch. -/
def updBoth : StateRecord :=
  ⟨some "update.zwave_js", some "unavailable", some ⟨some "1.1", some "1.0"⟩⟩

/-- An `update.*` record with an absent `state` key and mismatching
versions. -/
def noStateUpd : StateRecord :=
  ⟨some "update.foo", none, some ⟨some "1.1", some "1.0"⟩⟩

/-- An unavailable record in an important domain. -/
def lightUnavail : StateRecord :=
  ⟨some "light.kitchen", some "unavailable", none⟩

/-- A summary with no unavailable devices and two pending updates, as
`analyze_health` would produce it. -/
def exWarnUpd : HealthSummary :=
  ⟨"warning", ⟨0, 0, []⟩,
    ⟨2, [⟨"update.core", some "1.0", some "1.1"⟩,
         ⟨"update.addon", some "2.0", some "2.1"⟩]⟩⟩

/-- A summary with five critical-unavailable devices. -/
def exCrit5 : HealthSummary :=
  ⟨"critical", ⟨6, 5, [("light", 6)]⟩, ⟨0, []⟩⟩

/-- The propositional reading of the version test: both version attributes
present, non-empty, and different. -/
def BothSetAndDiffer (a : Attrs) : Prop :=
  ∃ l i, a.latest_version = some l ∧ a.installed_version = some i
    ∧ l ≠ "" ∧ i ≠ "" ∧ l ≠ i

/-! ### Auxiliary definitions for stating the claims -/

/-- Total number of entity ids stored across all buckets. -/
def bucketsSize (bs : List (String × List String)) : Nat :=
  (bs.map fun p => p.2.length).sum

/-- `if acc.contains d then acc else acc ++ [d]`: record a domain the first
time it is seen. -/
def seenInsert (acc : List String) (d : String) : List String :=
  if acc.contains d then acc else acc ++ [d]

/-- The domains of unavailable entities in the order their first
unavailable entity occurs in the input. -/
def firstUnavailDomains (states : List StateRecord) : List String :=
  states.foldl
    (fun acc r => if isUnavailable r then seenInsert acc (recordDomain r) else acc) []


/-! ### Recurrences for the accumulator lists -/

lemma unavailableList_cons (r : StateRecord) (states : List StateRecord) :
    unavailableList (r :: states) =
      if isUnavailable r then recordEid r :: unavailableList states
      else unavailableList states := by
  by_cases h : isUnavailable r <;> simp [unavailableList, List.filter_cons, h]

lemma criticalUnavailableList_cons (r : StateRecord) (states : List StateRecord) :
    criticalUnavailableList (r :: states) =
      if isCriticalUnavailable r then recordEid r :: criticalUnavailableList states
      else criticalUnavailableList states := by
  by_cases h : isCriticalUnavailable r <;>
    simp [criticalUnavailableList, List.filter_cons, h]

lemma updatesList_cons (r : StateRecord) (states : List StateRecord) :
    updatesList (r :: states) =
      if isPendingUpdate r then mkUpdateItem r :: updatesList states
      else updatesList states := by
  by_cases h : isPendingUpdate r <;> simp [updatesList, List.filter_cons, h]

/-! ### The stable count-descending sort -/

lemma insertByCountDesc_perm (p : String × Nat) (l : List (String × Nat)) :
    List.Perm (insertByCountDesc p l) (p :: l) := by
  induction l with
  | nil => exact List.Perm.refl _
  | cons q rest ih =>
      unfold insertByCountDesc
      by_cases h : p.2 < q.2
      · simpa [h] using (ih.cons q).trans (List.Perm.swap p q rest)
      · simp [h]

lemma sortByCountDesc_perm (l : List (String × Nat)) :
    List.Perm (sortByCountDesc l) l := by
  induction l with
  | nil => exact List.Perm.refl _
  | cons p rest ih => exact (insertByCountDesc_perm p _).trans (ih.cons p)

lemma insertByCountDesc_sorted (p : String × Nat) (l : List (String × Nat))
    (h : l.Pairwise fun a b => b.2 ≤ a.2) :
    (insertByCountDesc p l).Pairwise fun a b => b.2 ≤ a.2 := by
  induction l with
  | nil => simp [insertByCountDesc]
  | cons q rest ih =>
      rw [List.pairwise_cons] at h
      unfold insertByCountDesc
      by_cases hlt : p.2 < q.2
      · rw [if_pos hlt, List.pairwise_cons]
        refine ⟨fun x hx => ?_, ih h.2⟩
        have hx2 : x = p ∨ x ∈ rest :=
          List.mem_cons.1 ((insertByCountDesc_perm p rest).mem_iff.1 hx)
        rcases hx2 with rfl | hmem
        · exact Nat.le_of_lt hlt
        · exact h.1 x hmem
      · rw [if_neg hlt, List.pairwise_cons]
        refine ⟨fun x hx => ?_, List.pairwise_cons.2 h⟩
        rcases List.mem_cons.1 hx with rfl | hmem
        · exact Nat.le_of_not_lt hlt
        · exact Nat.le_trans (h.1 x hmem) (Nat.le_of_not_lt hlt)

lemma sortByCountDesc_sorted (l : List (String × Nat)) :
    (sortByCountDesc l).Pairwise fun a b => b.2 ≤ a.2 := by
  induction l with
  | nil => simp [sortByCountDesc]
  | cons p rest ih => exact insertByCountDesc_sorted p _ ih

lemma insertByCountDesc_filter (p : String × Nat) (l : List (String × Nat)) (c : Nat) :
    (insertByCountDesc p l).filter (fun q => q.2 == c) =
      (p :: l).filter (fun q => q.2 == c) := by
  induction l with
  | nil => rfl
  | cons q rest ih =>
      unfold insertByCountDesc
      by_cases hlt : p.2 < q.2
      · rw [if_pos hlt]
        by_cases hq : q.2 = c
        · have hp : ¬ p.2 = c := by omega
          simp [List.filter_cons, hq, hp] at ih ⊢
          simpa [List.filter_cons, hq, hp] using ih
        · simp [List.filter_cons, hq] at ih ⊢
          exact ih
      · rw [if_neg hlt]

lemma sortByCountDesc_filter (l : List (String × Nat)) (c : Nat) :
    (sortByCountDesc l).filter (fun q => q.2 == c) =
      l.filter (fun q => q.2 == c) := by
  induction l with
  | nil => rfl
  | cons p rest ih =>
      have h1 : sortByCountDesc (p :: rest) =
          insertByCountDesc p (sortByCountDesc rest) := rfl
      rw [h1, insertByCountDesc_filter]
      by_cases hp : p.2 = c <;> simp [List.filter_cons, hp, ih]

/-! ### Bucket bookkeeping -/

lemma bucketsSize_addToBucket (bs : List (String × List String)) (d e : String) :
    bucketsSize (addToBucket bs d e) = bucketsSize bs + 1 := by
  induction bs with
  | nil => simp [addToBucket, bucketsSize]
  | cons q rest ih =>
      obtain ⟨k, es⟩ := q
      by_cases h : k = d
      · simp [addToBucket, h, bucketsSize]
        omega
      · simp [addToBucket, h, bucketsSize] at ih ⊢
        omega

lemma bucketsSize_foldl (states : List StateRecord)
    (acc : List (String × List String)) :
    bucketsSize (states.foldl bucketStep acc) =
      bucketsSize acc + (states.filter isUnavailable).length := by
  induction states generalizing acc with
  | nil => simp
  | cons r rest ih =>
      rw [List.foldl_cons, ih, List.filter_cons]
      by_cases h : isUnavailable r
      · simp [bucketStep, h, bucketsSize_addToBucket]
        omega
      · simp [bucketStep, h]

lemma addToBucket_buckets_ne_nil (bs : List (String × List String)) (d e : String)
    (h : ∀ p ∈ bs, p.2 ≠ []) : ∀ p ∈ addToBucket bs d e, p.2 ≠ [] := by
  induction bs with
  | nil =>
      intro p hp
      simp [addToBucket] at hp
      simp [hp]
  | cons q rest ih =>
      obtain ⟨k, es⟩ := q
      intro p hp
      by_cases hk : k = d
      · simp [addToBucket, hk] at hp
        rcases hp with rfl | hmem
        · simp
        · exact h p (List.mem_cons_of_mem _ hmem)
      · simp only [addToBucket, if_neg hk] at hp
        rcases List.mem_cons.1 hp with rfl | hmem
        · exact h (k, es) (List.mem_cons_self _ _)
        · exact ih (fun x hx => h x (List.mem_cons_of_mem _ hx)) p hmem

lemma foldl_buckets_ne_nil (states : List StateRecord)
    (acc : List (String × List String)) (h : ∀ p ∈ acc, p.2 ≠ []) :
    ∀ p ∈ states.foldl bucketStep acc, p.2 ≠ [] := by
  induction states generalizing acc with
  | nil => simpa using h
  | cons r rest ih =>
      rw [List.foldl_cons]
      refine ih (bucketStep acc r) ?_
      unfold bucketStep
      by_cases hr : isUnavailable r
      · rw [if_pos hr]
        exact addToBucket_buckets_ne_nil acc _ _ h
      · rw [if_neg hr]
        exact h

/-- The by_domain counts of the summary sum to the total unavailable count. -/
lemma sum_by_domain_eq_total (states : List StateRecord) :
    (((analyze_health states).unavailable.by_domain).map Prod.snd).sum =
      (analyze_health states).unavailable.total_count := by
  have hperm := (sortByCountDesc_perm (domainCounts states)).map Prod.snd
  have hsum : ((sortByCountDesc (domainCounts states)).map Prod.snd).sum =
      ((domainCounts states).map Prod.snd).sum := hperm.sum_eq
  have hdc : ((domainCounts states).map Prod.snd).sum = bucketsSize (byDomainBuckets states) := by
    simp [domainCounts, bucketsSize, List.map_map, Function.comp_def]
  have hfold : bucketsSize (byDomainBuckets states) =
      (states.filter isUnavailable).length := by
    simpa [bucketsSize] using bucketsSize_foldl states []
  have htot : (analyze_health states).unavailable.total_count =
      (states.filter isUnavailable).length := by
    simp [analyze_health, unavailableList]
  rw [show (analyze_health states).unavailable.by_domain =
        sortByCountDesc (domainCounts states) from rfl, hsum, hdc, hfold, htot]

/-- The critical accumulator is the unavailable accumulator further
filtered, so it is never longer. -/
lemma critical_le_total (states : List StateRecord) :
    (criticalUnavailableList states).length ≤ (unavailableList states).length := by
  simp only [criticalUnavailableList, unavailableList, List.length_map]
  refine List.Sublist.length_le (List.monotone_filter_right _ ?_)
  intro r h
  simp only [isCriticalUnavailable, Bool.and_eq_true] at h
  exact h.1

/-- Every count in the summary's by_domain mapping is positive. -/
lemma by_domain_pos (states : List StateRecord) :
    ∀ p ∈ (analyze_health states).unavailable.by_domain, 0 < p.2 := by
  intro p hp
  have hmem : p ∈ domainCounts states :=
    (sortByCountDesc_perm (domainCounts states)).mem_iff.1 hp
  simp only [domainCounts, List.mem_map] at hmem
  obtain ⟨q, hq, rfl⟩ := hmem
  have hne : q.2 ≠ [] := foldl_buckets_ne_nil states [] (by simp) q hq
  simpa [List.length_pos] using hne

/-- Case analysis on the severity decision. -/
lemma severityOf_eq (states : List StateRecord) :
    severityOf states =
      if 5 ≤ (criticalUnavailableList states).length then "critical"
      else if 0 < (criticalUnavailableList states).length
          ∨ 0 < (updatesList states).length then "warning"
      else "healthy" := by
  unfold severityOf
  by_cases h5 : 5 ≤ (criticalUnavailableList states).length
  · rw [if_pos h5, if_pos h5]
  · rw [if_neg h5, if_neg h5]
    by_cases hw : 0 < (criticalUnavailableList states).length
        ∨ 0 < (updatesList states).length
    · rw [if_pos hw, if_pos ?_]
      rcases hw with hw | hw
      · cases hcl : criticalUnavailableList states with
        | nil => rw [hcl] at hw; simp at hw
        | cons a l => simp [hcl]
      · cases hul : updatesList states with
        | nil => rw [hul] at hw; simp at hw
        | cons a l => simp [hul]
    · rw [if_neg hw, if_neg ?_]
      push_neg at hw
      obtain ⟨h1, h2⟩ := hw
      have hcl : criticalUnavailableList states = [] := by
        cases hc : criticalUnavailableList states with
        | nil => rfl
        | cons a l => rw [hc] at h1; simp at h1
      have hul : updatesList states = [] := by
        cases hu : updatesList states with
        | nil => rfl
        | cons a l => rw [hu] at h2; simp at h2
      simp [hcl, hul]

lemma addToBucket_keys (bs : List (String × List String)) (d e : String) :
    (addToBucket bs d e).map Prod.fst = seenInsert (bs.map Prod.fst) d := by
  induction bs with
  | nil => simp [addToBucket, seenInsert]
  | cons q rest ih =>
      obtain ⟨k, es⟩ := q
      by_cases hk : k = d
      · subst hk
        simp [addToBucket, seenInsert]
      · have hdk : ¬ d = k := fun h => hk h.symm
        simp only [addToBucket, if_neg hk, List.map_cons, ih, seenInsert,
          List.contains_cons]
        by_cases hmem : (rest.map Prod.fst).contains d = true
        · simp only [hmem, if_true]
          simp [hdk]
        · simp only [Bool.not_eq_true] at hmem
          rw [hmem]
          simp [hdk]

lemma foldl_buckets_keys (states : List StateRecord)
    (acc : List (String × List String)) :
    (states.foldl bucketStep acc).map Prod.fst =
      states.foldl
        (fun ks r => if isUnavailable r then seenInsert ks (recordDomain r) else ks)
        (acc.map Prod.fst) := by
  induction states generalizing acc with
  | nil => rfl
  | cons r rest ih =>
      rw [List.foldl_cons, List.foldl_cons, ih]
      by_cases hr : isUnavailable r
      · rw [show bucketStep acc r = addToBucket acc (recordDomain r) (recordEid r) from
          by simp [bucketStep, hr], addToBucket_keys, if_pos hr]
      · rw [show bucketStep acc r = acc from by simp [bucketStep, hr], if_neg hr]

/-- The pre-sort domain-count list is keyed in first-encountered order. -/
lemma domainCounts_keys (states : List StateRecord) :
    (domainCounts states).map Prod.fst = firstUnavailDomains states := by
  have h := foldl_buckets_keys states []
  simp only [List.map_nil] at h
  simp [domainCounts, List.map_map, Function.comp_def, byDomainBuckets, h,
    firstUnavailDomains]

lemma versionMismatch_iff (a : Attrs) :
    versionMismatch a = true ↔ BothSetAndDiffer a := by
  obtain ⟨lv, iv⟩ := a
  cases lv with
  | none => simp [versionMismatch, truthyString, BothSetAndDiffer]
  | some l =>
      cases iv with
      | none => simp [versionMismatch, truthyString, BothSetAndDiffer]
      | some i =>
          simp only [versionMismatch, truthyString, BothSetAndDiffer,
            Bool.and_eq_true, Bool.not_eq_eq_eq_not, Bool.not_true, beq_eq_false_iff_ne,
            ne_eq, Option.some.injEq]
          constructor
          · rintro ⟨⟨hl, hi⟩, hne⟩
            exact ⟨l, i, rfl, rfl, hl, hi, hne⟩
          · rintro ⟨l', i', hl', hi', h1, h2, h3⟩
            cases hl'; cases hi'
            exact ⟨⟨h1, h2⟩, h3⟩

lemma isPendingUpdate_iff (r : StateRecord) (hdom : recordDomain r = "update") :
    isPendingUpdate r = true ↔
      recordState r = "on" ∨ BothSetAndDiffer (recordAttrs r) := by
  simp only [isPendingUpdate, Bool.and_eq_true, Bool.or_eq_true, beq_iff_eq,
    versionMismatch_iff, hdom, true_and]

/-! ### The issue branch of build_report -/

/-- Whenever the severity is anything but `healthy`, `build_report` takes
its single issue branch: the critical-devices headline, the fixed outage
description and the fixed three-step checklist. -/
lemma build_report_issue (h : HealthSummary) (hs : ¬ h.severity = "healthy") :
    build_report h =
      { headline := toString h.unavailable.critical_count
          ++ " critical devices unavailable"
        description := unavailDescription
        start_here := unavailStartHere
        details :=
          if (impactedWithFallback h.unavailable.by_domain).isEmpty then ""
          else "Most affected domains: "
            ++ String.intercalate ", " (impactedWithFallback h.unavailable.by_domain) } := by
  unfold build_report
  rw [if_neg (by simp [hs])]

/-- A positive critical count or pending update forces a non-healthy
severity. -/
lemma severityOf_ne_healthy (states : List StateRecord)
    (hpos : 0 < (criticalUnavailableList states).length
      ∨ 0 < (updatesList states).length) :
    ¬ severityOf states = "healthy" := by
  rw [severityOf_eq]
  by_cases h1 : 5 ≤ (criticalUnavailableList states).length
  · rw [if_pos h1]
    decide
  · rw [if_neg h1, if_pos hpos]
    decide

/-! ### Claims -/

/-- C3: for every input state list, the severity returned by
`analyze_health` is `critical` iff `critical_count >= 5`; `warning` iff
(`critical_count` is between 1 and 4 inclusive, or `updates.count > 0`)
and not critical; and `healthy` otherwise, in that priority order. -/
theorem C3_severity_rule (states : List StateRecord) :
    ((analyze_health states).severity = "critical"
      ↔ 5 ≤ (analyze_health states).unavailable.critical_count)
    ∧ ((analyze_health states).severity = "warning"
      ↔ ((1 ≤ (analyze_health states).unavailable.critical_count
            ∧ (analyze_health states).unavailable.critical_count ≤ 4)
          ∨ 0 < (analyze_health states).updates.count)
        ∧ ¬ 5 ≤ (analyze_health states).unavailable.critical_count)
    ∧ ((analyze_health states).severity = "healthy"
      ↔ (analyze_health states).unavailable.critical_count = 0
        ∧ (analyze_health states).updates.count = 0) := by
  have hsev : (analyze_health states).severity = severityOf states := rfl
  have hcc : (analyze_health states).unavailable.critical_count
      = (criticalUnavailableList states).length := rfl
  have huc : (analyze_health states).updates.count
      = (updatesList states).length := rfl
  rw [hsev, hcc, huc, severityOf_eq]
  by_cases h5 : 5 ≤ (criticalUnavailableList states).length
  · rw [if_pos h5]
    refine ⟨by simp [h5], ?_, ?_⟩
    · constructor
      · intro h
        exact absurd h (by decide)
      · rintro ⟨-, hn⟩
        exact absurd h5 hn
    · constructor
      · intro h
        exact absurd h (by decide)
      · rintro ⟨h0, -⟩
        omega
  · rw [if_neg h5]
    by_cases hw : 0 < (criticalUnavailableList states).length
        ∨ 0 < (updatesList states).length
    · rw [if_pos hw]
      refine ⟨?_, ?_, ?_⟩
      · constructor
        · intro h
          exact absurd h (by decide)
        · intro h
          exact absurd h h5
      · constructor
        · intro _
          refine ⟨?_, h5⟩
          rcases hw with hw | hw
          · left
            omega
          · right
            exact hw
        · intro _
          rfl
      · constructor
        · intro h
          exact absurd h (by decide)
        · rintro ⟨h0, h1⟩
          rcases hw with hw | hw <;> omega
    · rw [if_neg hw]
      push_neg at hw
      obtain ⟨hc0, hu0⟩ := hw
      refine ⟨?_, ?_, ?_⟩
      · constructor
        · intro h
          exact absurd h (by decide)
        · intro h
          omega
      · constructor
        · intro h
          exact absurd h (by decide)
        · rintro ⟨h1, -⟩
          rcases h1 with h1 | h1 <;> omega
      · constructor
        · intro _
          omega
        · intro _
          rfl

/-- C4: for every input state list, the summary satisfies
`critical_count <= total_count`, the by_domain counts sum to
`total_count`, and by_domain has no zero-count entry. -/
theorem C4_summary_invariants (states : List StateRecord) :
    (analyze_health states).unavailable.critical_count
      ≤ (analyze_health states).unavailable.total_count
    ∧ (((analyze_health states).unavailable.by_domain).map Prod.snd).sum
      = (analyze_health states).unavailable.total_count
    ∧ ∀ p ∈ (analyze_health states).unavailable.by_domain, p.2 ≠ 0 := by
  refine ⟨critical_le_total states, sum_by_domain_eq_total states, ?_⟩
  intro p hp
  exact Nat.pos_iff_ne_zero.mp (by_domain_pos states p hp)

/-- C6: the summary's by_domain mapping is ordered by count descending,
and ties keep the order in which each domain's first unavailable entity
was encountered (the sort is stable on count only): filtering the sorted
mapping to any fixed count yields exactly the first-encountered-order
list `domainCounts` filtered to that count, and `domainCounts` is keyed
in first-encountered order. -/
theorem C6_by_domain_order (states : List StateRecord) :
    ((analyze_health states).unavailable.by_domain).Pairwise (fun a b => b.2 ≤ a.2)
    ∧ (∀ c : Nat,
        ((analyze_health states).unavailable.by_domain).filter (fun q => q.2 == c)
          = (domainCounts states).filter (fun q => q.2 == c))
    ∧ (domainCounts states).map Prod.fst = firstUnavailDomains states :=
  ⟨sortByCountDesc_sorted (domainCounts states),
   fun c => sortByCountDesc_filter (domainCounts states) c,
   domainCounts_keys states⟩

/-- C10: the classifier's severity is always one of `healthy`, `warning`
or `critical`, never `unknown`; the `unknown` severity appears only in
the caller's upstream-failure fallback summary. -/
theorem C10_severity_never_unknown (states : List StateRecord) :
    ((analyze_health states).severity = "healthy"
      ∨ (analyze_health states).severity = "warning"
      ∨ (analyze_health states).severity = "critical")
    ∧ ¬ (analyze_health states).severity = "unknown"
    ∧ fallbackHealth.severity = "unknown" := by
  have hsev : (analyze_health states).severity = severityOf states := rfl
  rw [hsev, severityOf_eq]
  refine ⟨?_, ?_, rfl⟩
  · by_cases h1 : 5 ≤ (criticalUnavailableList states).length
    · rw [if_pos h1]
      right; right; rfl
    · rw [if_neg h1]
      by_cases h2 : 0 < (criticalUnavailableList states).length
          ∨ 0 < (updatesList states).length
      · rw [if_pos h2]
        right; left; rfl
      · rw [if_neg h2]
        left; rfl
  · by_cases h1 : 5 ≤ (criticalUnavailableList states).length
    · rw [if_pos h1]
      decide
    · rw [if_neg h1]
      by_cases h2 : 0 < (criticalUnavailableList states).length
          ∨ 0 < (updatesList states).length
      · rw [if_pos h2]
        decide
      · rw [if_neg h2]
        decide

/-- C5: an entity in the update domain is counted as a pending update iff
its state is `on` or its version attributes are both non-empty and
unequal; `state="off"` with equal versions is not counted, `state="on"`
is counted regardless of versions, and `state="off"` with versions
`1.0`/`1.1` is counted. -/
theorem C5_update_detection (r : StateRecord) (states : List StateRecord)
    (hdom : recordDomain r = "update") :
    ((analyze_health (r :: states)).updates.count
        = (analyze_health states).updates.count + 1
      ↔ (recordState r = "on" ∨ BothSetAndDiffer (recordAttrs r)))
    ∧ (analyze_health [updOffSame]).updates.count = 0
    ∧ (analyze_health [updOn]).updates.count = 1
    ∧ (analyze_health [updOffDiff]).updates.count = 1 := by
  refine ⟨?_, by decide, by decide, by decide⟩
  have hcount : (analyze_health (r :: states)).updates.count =
      if isPendingUpdate r = true then (analyze_health states).updates.count + 1
      else (analyze_health states).updates.count := by
    show (updatesList (r :: states)).length = _
    rw [updatesList_cons]
    by_cases h : isPendingUpdate r = true
    · rw [if_pos h, if_pos h]
      rfl
    · rw [if_neg (by simpa using h), if_neg h]
      rfl
  rw [hcount]
  by_cases h : isPendingUpdate r = true
  · rw [if_pos h]
    constructor
    · intro _
      exact (isPendingUpdate_iff r hdom).1 h
    · intro _
      rfl
  · rw [if_neg h]
    constructor
    · intro habs
      omega
    · intro hrhs
      exact absurd ((isPendingUpdate_iff r hdom).2 hrhs) h

/-- Witness for C5 at the concrete record `updOn`. -/
theorem C5_update_detection_witness :
    recordDomain updOn = "update"
    ∧ (((analyze_health (updOn :: [])).updates.count
          = (analyze_health []).updates.count + 1
        ↔ (recordState updOn = "on" ∨ BothSetAndDiffer (recordAttrs updOn)))
      ∧ (analyze_health [updOffSame]).updates.count = 0
      ∧ (analyze_health [updOn]).updates.count = 1
      ∧ (analyze_health [updOffDiff]).updates.count = 1) :=
  ⟨by decide, C5_update_detection updOn [] (by decide)⟩

/-- C8: for every summary with severity `healthy` (in particular the one
computed from an empty state list), `build_report` returns the fixed
reassuring report with empty `start_here` and empty `details`. -/
theorem C8_healthy_report (h : HealthSummary) (hs : h.severity = "healthy") :
    build_report h = healthyReport
    ∧ (build_report h).start_here = []
    ∧ (build_report h).details = ""
    ∧ (analyze_health []).severity = "healthy"
    ∧ build_report (analyze_health []) = healthyReport := by
  have hb : build_report h = healthyReport := by
    unfold build_report
    rw [if_pos (by simp [hs])]
  refine ⟨hb, ?_, ?_, rfl, by decide⟩
  · rw [hb]
    rfl
  · rw [hb]
    rfl

/-- Witness for C8 at the summary computed from the empty state list. -/
theorem C8_healthy_report_witness :
    (analyze_health []).severity = "healthy"
    ∧ (build_report (analyze_health []) = healthyReport
      ∧ (build_report (analyze_health [])).start_here = []
      ∧ (build_report (analyze_health [])).details = ""
      ∧ (analyze_health []).severity = "healthy"
      ∧ build_report (analyze_health []) = healthyReport) :=
  ⟨rfl, C8_healthy_report (analyze_health []) rfl⟩

/-- C9: a record in the update domain whose state is unavailable/unknown
is counted in the unavailable tallies (total_count and the by_domain
counts), and independently in the updates tally exactly when it also
satisfies the pending-update rule; the classifications are not mutually
exclusive, as witnessed by `updBoth`. -/
theorem C9_dual_counting (r : StateRecord) (states : List StateRecord)
    (hdom : recordDomain r = "update") (hun : isUnavailable r = true) :
    (analyze_health (r :: states)).unavailable.total_count
        = (analyze_health states).unavailable.total_count + 1
    ∧ (((analyze_health (r :: states)).unavailable.by_domain).map Prod.snd).sum
        = (((analyze_health states).unavailable.by_domain).map Prod.snd).sum + 1
    ∧ (analyze_health (r :: states)).updates.count
        = (analyze_health states).updates.count
          + (if isPendingUpdate r = true then 1 else 0)
    ∧ (analyze_health [updBoth]).unavailable.total_count = 1
    ∧ (analyze_health [updBoth]).updates.count = 1 := by
  have htot : (analyze_health (r :: states)).unavailable.total_count
      = (analyze_health states).unavailable.total_count + 1 := by
    show (unavailableList (r :: states)).length = (unavailableList states).length + 1
    rw [unavailableList_cons, if_pos hun]
    rfl
  refine ⟨htot, ?_, ?_, by decide, by decide⟩
  · rw [sum_by_domain_eq_total, sum_by_domain_eq_total, htot]
  · show (updatesList (r :: states)).length = _
    rw [updatesList_cons]
    by_cases h : isPendingUpdate r = true
    · rw [if_pos h, if_pos h]
      rfl
    · rw [if_neg (by simpa using h), if_neg h]
      rfl

/-- Witness for C9 at the concrete record `updBoth`. -/
theorem C9_dual_counting_witness :
    (recordDomain updBoth = "update" ∧ isUnavailable updBoth = true)
    ∧ ((analyze_health (updBoth :: [])).unavailable.total_count
          = (analyze_health []).unavailable.total_count + 1
      ∧ (((analyze_health (updBoth :: [])).unavailable.by_domain).map Prod.snd).sum
          = (((analyze_health []).unavailable.by_domain).map Prod.snd).sum + 1
      ∧ (analyze_health (updBoth :: [])).updates.count
          = (analyze_health []).updates.count
            + (if isPendingUpdate updBoth = true then 1 else 0)
      ∧ (analyze_health [updBoth]).unavailable.total_count = 1
      ∧ (analyze_health [updBoth]).updates.count = 1) :=
  ⟨by decide, C9_dual_counting updBoth [] (by decide) (by decide)⟩

/-- C1, counterexample: on a summary with `critical_count = 0`,
`updates.count = 2` and severity `warning`, `build_report` returns the
unavailable-devices report — headline `0 critical devices unavailable`
(no `2` appears in it) and the integration/coordinator/reboot checklist —
not a pending-update report. -/
theorem C1_counterexample :
    exWarnUpd.severity = "warning"
    ∧ exWarnUpd.unavailable.critical_count = 0
    ∧ exWarnUpd.updates.count = 2
    ∧ build_report exWarnUpd =
        { headline := "0 critical devices unavailable"
          description := unavailDescription
          start_here := unavailStartHere
          details := "" }
    ∧ (build_report exWarnUpd).headline.toList.contains '2' = false := by
  refine ⟨rfl, rfl, rfl, by rfl, by rfl⟩

/-- C1, amended: for every summary with severity `warning`,
`critical_count = 0` and `updates.count > 0`, `build_report` returns the
unavailable-devices report: headline `0 critical devices unavailable`,
the fixed outage description, and the fixed three-step
integration/coordinator/reboot checklist; there is no pending-update
branch. -/
theorem C1_warning_update_report (h : HealthSummary)
    (hsev : h.severity = "warning")
    (hcc : h.unavailable.critical_count = 0)
    (hupd : 0 < h.updates.count) :
    (build_report h).headline = "0 critical devices unavailable"
    ∧ (build_report h).description = unavailDescription
    ∧ (build_report h).start_here = unavailStartHere := by
  rw [build_report_issue h (by rw [hsev]; decide)]
  refine ⟨?_, rfl, rfl⟩
  rw [hcc]
  rfl

/-- Witness for the amended C1 at the concrete summary `exWarnUpd`. -/
theorem C1_warning_update_report_witness :
    (exWarnUpd.severity = "warning"
      ∧ exWarnUpd.unavailable.critical_count = 0
      ∧ 0 < exWarnUpd.updates.count)
    ∧ ((build_report exWarnUpd).headline = "0 critical devices unavailable"
      ∧ (build_report exWarnUpd).description = unavailDescription
      ∧ (build_report exWarnUpd).start_here = unavailStartHere) :=
  ⟨⟨rfl, rfl, by decide⟩,
   C1_warning_update_report exWarnUpd rfl rfl (by decide)⟩

/-- C2, counterexample: the dictionary `build_report` returns has exactly
the keys `headline`, `description`, `start_here`, `details` — no
`severity` key — even on a summary whose critical count reaches the
threshold. -/
theorem C2_counterexample :
    ("severity" ∈ reportFieldNames → False)
    ∧ 5 ≤ exCrit5.unavailable.critical_count
    ∧ build_report exCrit5 =
        { headline := "5 critical devices unavailable"
          description := unavailDescription
          start_here := unavailStartHere
          details := "Most affected domains: light (6)" } := by
  refine ⟨by decide, by decide, by rfl⟩

/-- C2, amended: for every state list whose summary has
`critical_count > 0`, the report `build_report` returns carries no
severity field (its keys are exactly headline, description, start_here,
details); its headline states the critical count and the rest of the
report does not vary with the critical count. -/
theorem C2_report_has_no_severity (states : List StateRecord)
    (hcc : 0 < (analyze_health states).unavailable.critical_count) :
    ("severity" ∈ reportFieldNames → False)
    ∧ reportFieldNames = ["headline", "description", "start_here", "details"]
    ∧ (build_report (analyze_health states)).headline
        = toString (analyze_health states).unavailable.critical_count
          ++ " critical devices unavailable"
    ∧ (build_report (analyze_health states)).description = unavailDescription
    ∧ (build_report (analyze_health states)).start_here = unavailStartHere := by
  have hne : ¬ (analyze_health states).severity = "healthy" :=
    severityOf_ne_healthy states (Or.inl hcc)
  rw [build_report_issue _ hne]
  exact ⟨by decide, rfl, rfl, rfl, rfl⟩

/-- Witness for the amended C2 at the singleton `lightUnavail` input. -/
theorem C2_report_has_no_severity_witness :
    0 < (analyze_health [lightUnavail]).unavailable.critical_count
    ∧ (("severity" ∈ reportFieldNames → False)
      ∧ reportFieldNames = ["headline", "description", "start_here", "details"]
      ∧ (build_report (analyze_health [lightUnavail])).headline
          = toString (analyze_health [lightUnavail]).unavailable.critical_count
            ++ " critical devices unavailable"
      ∧ (build_report (analyze_health [lightUnavail])).description = unavailDescription
      ∧ (build_report (analyze_health [lightUnavail])).start_here = unavailStartHere) :=
  ⟨by decide, C2_report_has_no_severity [lightUnavail] (by decide)⟩

/-- C7, counterexample: a record with an absent `state` key is not
counted as unavailable, but it IS counted as a pending update when its
version attributes are non-empty and unequal — refuting the blanket
"absent state → not an update". -/
theorem C7_counterexample :
    noStateUpd.state = none
    ∧ isUnavailable noStateUpd = false
    ∧ (analyze_health [noStateUpd]).updates.count = 1 := by
  refine ⟨rfl, by decide, by decide⟩

/-- C7, amended: both functions are total Lean functions, so no input
raises; malformed records degrade gracefully: an absent `state` key means
the record is not unavailable and can only count as an update through the
version comparison; an `entity_id` without a `.` is bucketed under domain
`unknown`; an absent `entity_id` defaults to `""` (hence domain
`unknown`) and absent `attributes` default to the empty mapping. -/
theorem C7_graceful_degradation (r : StateRecord) (hstate : r.state = none) :
    isUnavailable r = false
    ∧ (isPendingUpdate r = true
        ↔ recordDomain r = "update" ∧ BothSetAndDiffer (recordAttrs r))
    ∧ (∀ eid : String, eid.toList.contains '.' = false → domainOf eid = "unknown")
    ∧ (∀ x : StateRecord, x.entity_id = none → recordEid x = "")
    ∧ (∀ x : StateRecord, x.entity_id = none → recordDomain x = "unknown")
    ∧ (∀ x : StateRecord, x.attributes = none → recordAttrs x = {}) := by
  have hr : recordState r = "" := by
    simp [recordState, hstate]
  refine ⟨?_, ?_, ?_, ?_, ?_, ?_⟩
  · simp [isUnavailable, hr]
  · simp only [isPendingUpdate, Bool.and_eq_true, Bool.or_eq_true, beq_iff_eq,
      versionMismatch_iff, hr]
    constructor
    · rintro ⟨h1, h2 | h2⟩
      · exact absurd h2 (by decide)
      · exact ⟨h1, h2⟩
    · rintro ⟨h1, h2⟩
      exact ⟨h1, Or.inr h2⟩
  · intro eid hdot
    unfold domainOf
    rw [hdot]
    simp
  · intro x hx
    simp [recordEid, hx]
  · intro x hx
    simp [recordDomain, recordEid, hx, domainOf]
  · intro x hx
    simp [recordAttrs, hx]

/-- Witness for the amended C7 at the concrete record `noStateUpd`. -/
theorem C7_graceful_degradation_witness :
    noStateUpd.state = none
    ∧ (isUnavailable noStateUpd = false
      ∧ (isPendingUpdate noStateUpd = true
          ↔ recordDomain noStateUpd = "update"
            ∧ BothSetAndDiffer (recordAttrs noStateUpd))
      ∧ (∀ eid : String, eid.toList.contains '.' = false → domainOf eid = "unknown")
      ∧ (∀ x : StateRecord, x.entity_id = none → recordEid x = "")
      ∧ (∀ x : StateRecord, x.entity_id = none → recordDomain x = "unknown")
      ∧ (∀ x : StateRecord, x.attributes = none → recordAttrs x = {})) :=
  ⟨rfl, C7_graceful_degradation noStateUpd rfl⟩

end HomeOps
